import Mathlib

/-!
Shallow embedding of the load-testing scripts src/app/robat.py and
src/app/robat-base.py: the request prober (test_endpoint) and the batch
aggregator (run_batch_test), with the HTTP transport and the clock
abstracted as an environment mapping each dispatched request to its
outcome.  Wall-clock readings and latencies (Python floats) are modelled
as rationals; Python round(x, 3) as rounding to the nearest 1/1000.
-/

/-- An HTTP response as seen by the prober: status code, body text and
response headers (the aiohttp response object). -/
structure Response where
  status : Nat
  text : String
  headers : List (String × String)
  deriving DecidableEq

/-- Outcome of one session.get call: either an HTTP response, or a raised
exception carrying its message (str(e)). -/
inductive HttpOutcome where
  | ok (resp : Response)
  | exn (msg : String)
  deriving DecidableEq

/-- The environment of one batch: what the shared aiohttp session and the
clock do for each dispatched request.  Requests are identified by their
request_id: get gives the outcome of session.get(url, headers=...) for that
request, elapsed the measured wall-clock seconds of that probe (a
time.time() difference), stamp its datetime.now().isoformat() completion
string.  clock_start and clock_end are the time.time() readings taken
around the batch and iso renders a clock reading as
datetime.fromtimestamp(...).isoformat(). -/
structure Transport where
  get : String → List (String × String) → Nat → HttpOutcome
  elapsed : Nat → ℚ
  stamp : Nat → String
  clock_start : ℚ
  clock_end : ℚ
  iso : ℚ → String

/-- Python round(x, 3) modelled over the rationals: round to the nearest
multiple of 1/1000. -/
def round3 (x : ℚ) : ℚ := ((round (x * 1000) : ℤ) : ℚ) / 1000

/-- A RequestRecord: the dict returned by test_endpoint.  Keys present in
only one of the two dict shapes (response_size and headers on the success
path, error on the failure path) are Options. -/
structure RequestRecord where
  request_id : Nat
  status_code : Nat
  success : Bool
  response_time : ℚ
  response_size : Option Nat
  timestamp : String
  headers : Option (List (String × String))
  error : Option String
  deriving DecidableEq, Inhabited

/-- The response_time_percentiles dict of a batch. -/
structure Percentiles where
  p50 : ℚ
  p90 : ℚ
  p95 : ℚ
  p99 : ℚ
  deriving DecidableEq, Inhabited

/-- BatchStats: the stats dict returned by run_batch_test. -/
structure BatchStats where
  batch_id : Nat
  total_requests : Nat
  start_time : String
  end_time : String
  total_duration : ℚ
  successful_requests : Nat
  failed_requests : Nat
  average_response_time : ℚ
  status_codes : List (String × Nat)
  detailed_results : List RequestRecord
  response_time_percentiles : Percentiles
  deriving DecidableEq, Inhabited

/-- Python division over floats: raises ZeroDivisionError on a zero
denominator, otherwise exact division (modelled over the rationals). -/
def pyDiv (a b : ℚ) : Except String ℚ :=
  if b = 0 then .error "ZeroDivisionError: division by zero" else .ok (a / b)

/-- Python list indexing xs[i] at a non-negative index: raises IndexError
when i is out of range.  (The indices formed by run_batch_test are always
non-negative, so the negative-wraparound case of Python indexing is
unreachable and not modelled.) -/
def pyIndex (xs : List ℚ) (i : Nat) : Except String ℚ :=
  if h : i < xs.length then .ok (xs.get ⟨i, h⟩)
  else .error "IndexError: list index out of range"

/-- The index used by the percentile lookups: int(n * p).  The Python float
product n * p is modelled as the exact rational product; int truncates
toward zero and the product is non-negative, so this is its floor. -/
def pctIndex (n : Nat) (p : ℚ) : Nat := (⌊(n : ℚ) * p⌋).toNat

/-- One step of building the status_codes histogram: the defaultdict(int)
increment of key k.  Python dicts keep insertion order, so a key not yet
present is appended at the end (with the default value 0, incremented). -/
def incrKey (m : List (String × Nat)) (k : String) : List (String × Nat) :=
  match m with
  | [] => [(k, 1)]
  | (q, v) :: rest => if q = k then (q, v + 1) :: rest else (q, v) :: incrKey rest k

/-- The status_codes histogram loop: for each result increment the count of
str(result.status_code), starting from an empty defaultdict(int). -/
def statusHistogram (results : List RequestRecord) : List (String × Nat) :=
  results.foldl (fun m r => incrKey m (toString r.status_code)) []

namespace robat

/-- test_endpoint from src/app/robat.py (lines 8-31): one GET with no extra
headers; on an HTTP response it builds the success-shaped record (success
iff status == 200, a strict equality), on any raised exception the
failure-shaped record with status_code 0 and the exception text. -/
def test_endpoint (t : Transport) (url : String) (request_id : Nat) : RequestRecord :=
  match t.get url [] request_id with
  | .ok resp =>
      { request_id := request_id
        status_code := resp.status
        success := resp.status == 200
        response_time := round3 (t.elapsed request_id)
        response_size := some resp.text.length
        timestamp := t.stamp request_id
        headers := some resp.headers
        error := none }
  | .exn msg =>
      { request_id := request_id
        status_code := 0
        success := false
        response_time := round3 (t.elapsed request_id)
        response_size := none
        timestamp := t.stamp request_id
        headers := none
        error := some msg }

/-- The results list of run_batch_test: asyncio.gather over the tasks
test_endpoint(session, url, i) dispatched for i = 0 .. concurrent_requests
- 1.  gather returns the results in task (dispatch) order regardless of
completion order, hence the map over List.range. -/
def gatherResults (t : Transport) (url : String) (concurrent_requests : Nat) :
    List RequestRecord :=
  (List.range concurrent_requests).map (test_endpoint t url)

/-- run_batch_test from src/app/robat.py (lines 33-72).  Python sorted(...)
is modelled by the stable List.insertionSort; sum(...) by a left fold from
0 as in Python.  The fallible spots of the source are the division by
len(results) in average_response_time (evaluated while the stats dict is
built) and the four percentile indexings evaluated afterwards, in source
order p50, p90, p95, p99. -/
def run_batch_test (t : Transport) (url : String) (concurrent_requests : Nat)
    (batch_id : Nat) : Except String BatchStats := do
  let results := gatherResults t url concurrent_requests
  let avg ← pyDiv (results.foldl (fun s r => s + r.response_time) 0) (results.length : ℚ)
  let response_times := List.insertionSort (· ≤ ·) (results.map (fun r => r.response_time))
  let v50 ← pyIndex response_times (response_times.length / 2)
  let v90 ← pyIndex response_times (pctIndex response_times.length (9 / 10))
  let v95 ← pyIndex response_times (pctIndex response_times.length (19 / 20))
  let v99 ← pyIndex response_times (pctIndex response_times.length (99 / 100))
  return { batch_id := batch_id
           total_requests := concurrent_requests
           start_time := t.iso t.clock_start
           end_time := t.iso t.clock_end
           total_duration := round3 (t.clock_end - t.clock_start)
           successful_requests := results.countP (fun r => r.success)
           failed_requests := results.countP (fun r => !r.success)
           average_response_time := round3 avg
           status_codes := statusHistogram results
           detailed_results := results
           response_time_percentiles :=
             { p50 := round3 v50
               p90 := round3 v90
               p95 := round3 v95
               p99 := round3 v99 } }

end robat

/-- The fixed Authorization header that src/app/robat-base.py (lines 10-12)
attaches to every probe. -/
def baseHeaders : List (String × String) := [("Authorization", "Basic token site")]

namespace robatBase

/-- test_endpoint from src/app/robat-base.py (lines 8-32): identical to the
robat.py prober except that session.get is called with the fixed
Authorization header. -/
def test_endpoint (t : Transport) (url : String) (request_id : Nat) : RequestRecord :=
  match t.get url baseHeaders request_id with
  | .ok resp =>
      { request_id := request_id
        status_code := resp.status
        success := resp.status == 200
        response_time := round3 (t.elapsed request_id)
        response_size := some resp.text.length
        timestamp := t.stamp request_id
        headers := some resp.headers
        error := none }
  | .exn msg =>
      { request_id := request_id
        status_code := 0
        success := false
        response_time := round3 (t.elapsed request_id)
        response_size := none
        timestamp := t.stamp request_id
        headers := none
        error := some msg }

/-- The asyncio.gather results list of robat-base.py, in dispatch order. -/
def gatherResults (t : Transport) (url : String) (concurrent_requests : Nat) :
    List RequestRecord :=
  (List.range concurrent_requests).map (test_endpoint t url)

/-- run_batch_test from src/app/robat-base.py (lines 34-73): textually the
same aggregation as robat.py, over the probes that carry the fixed
Authorization header. -/
def run_batch_test (t : Transport) (url : String) (concurrent_requests : Nat)
    (batch_id : Nat) : Except String BatchStats := do
  let results := gatherResults t url concurrent_requests
  let avg ← pyDiv (results.foldl (fun s r => s + r.response_time) 0) (results.length : ℚ)
  let response_times := List.insertionSort (· ≤ ·) (results.map (fun r => r.response_time))
  let v50 ← pyIndex response_times (response_times.length / 2)
  let v90 ← pyIndex response_times (pctIndex response_times.length (9 / 10))
  let v95 ← pyIndex response_times (pctIndex response_times.length (19 / 20))
  let v99 ← pyIndex response_times (pctIndex response_times.length (99 / 100))
  return { batch_id := batch_id
           total_requests := concurrent_requests
           start_time := t.iso t.clock_start
           end_time := t.iso t.clock_end
           total_duration := round3 (t.clock_end - t.clock_start)
           successful_requests := results.countP (fun r => r.success)
           failed_requests := results.countP (fun r => !r.success)
           average_response_time := round3 avg
           status_codes := statusHistogram results
           detailed_results := results
           response_time_percentiles :=
             { p50 := round3 v50
               p90 := round3 v90
               p95 := round3 v95
               p99 := round3 v99 } }

end robatBase

/-- A transport on which every request yields HTTP 200 with body "ok" and
latency i seconds for request i. -/
def allOk : Transport :=
  { get := fun _ _ _ => .ok { status := 200, text := "ok", headers := [] }
    elapsed := fun i => (i : ℚ)
    stamp := fun _ => "2026-01-01T00:00:00"
    clock_start := 0
    clock_end := 1
    iso := fun _ => "2026-01-01T00:00:00" }

/-- A transport on which every session.get raises (transport failure). -/
def allExn : Transport :=
  { get := fun _ _ _ => .exn "Cannot connect to host"
    elapsed := fun i => (i : ℚ)
    stamp := fun _ => "2026-01-01T00:00:00"
    clock_start := 0
    clock_end := 1
    iso := fun _ => "2026-01-01T00:00:00" }

/-- A transport on which every request yields HTTP 500. -/
def all500 : Transport :=
  { get := fun _ _ _ => .ok { status := 500, text := "err", headers := [] }
    elapsed := fun i => (i : ℚ)
    stamp := fun _ => "2026-01-01T00:00:00"
    clock_start := 0
    clock_end := 1
    iso := fun _ => "2026-01-01T00:00:00" }

/-- The ascending sort of the response_time values of a results list
(the variable response_times of run_batch_test). -/
def sortedTimes (results : List RequestRecord) : List ℚ :=
  List.insertionSort (· ≤ ·) (results.map fun r => r.response_time)

/-- Closed form of the BatchStats that run_batch_test returns whenever at
least one probe was dispatched (established by run_batch_test_ok below):
same fields, with the percentile lookups written via List.getD. -/
def batchStatsOf (t : Transport) (url : String) (concurrent_requests : Nat)
    (batch_id : Nat) : BatchStats :=
  let results := robat.gatherResults t url concurrent_requests
  let response_times := sortedTimes results
  { batch_id := batch_id
    total_requests := concurrent_requests
    start_time := t.iso t.clock_start
    end_time := t.iso t.clock_end
    total_duration := round3 (t.clock_end - t.clock_start)
    successful_requests := results.countP (fun r => r.success)
    failed_requests := results.countP (fun r => !r.success)
    average_response_time :=
      round3 ((results.foldl (fun s r => s + r.response_time) 0) / (results.length : ℚ))
    status_codes := statusHistogram results
    detailed_results := results
    response_time_percentiles :=
      { p50 := round3 (response_times.getD (response_times.length / 2) 0)
        p90 := round3 (response_times.getD (pctIndex response_times.length (9 / 10)) 0)
        p95 := round3 (response_times.getD (pctIndex response_times.length (19 / 20)) 0)
        p99 := round3 (response_times.getD (pctIndex response_times.length (99 / 100)) 0) } }

theorem gatherResults_length (t : Transport) (url : String) (N : Nat) :
    (robat.gatherResults t url N).length = N := by
  simp [robat.gatherResults]

theorem sortedTimes_length (results : List RequestRecord) :
    (sortedTimes results).length = results.length := by
  simp [sortedTimes, List.length_insertionSort]

theorem pctIndex_lt {N : Nat} (hN : 0 < N) {p : ℚ} (hp1 : p < 1) : pctIndex N p < N := by
  have h1 : (N : ℚ) * p < (N : ℚ) := mul_lt_of_lt_one_right (by exact_mod_cast hN) hp1
  have h2 : ⌊(N : ℚ) * p⌋ < (N : ℤ) := Int.floor_lt.2 (by exact_mod_cast h1)
  have h3 : pctIndex N p = (⌊(N : ℚ) * p⌋).toNat := rfl
  omega


theorem pyDiv_ok {a b : ℚ} (h : b ≠ 0) : pyDiv a b = .ok (a / b) := by
  simp [pyDiv, h]

theorem pyIndex_ok {xs : List ℚ} {i : Nat} (h : i < xs.length) :
    pyIndex xs i = .ok (xs.getD i 0) := by
  simp [pyIndex, h, List.getD_eq_getElem, List.get_eq_getElem]

theorem run_batch_test_ok (t : Transport) (url : String) {N : Nat} (hN : 0 < N) (b : Nat) :
    robat.run_batch_test t url N b = .ok (batchStatsOf t url N b) := by
  have hlen : (robat.gatherResults t url N).length = N := gatherResults_length t url N
  have hslen :
      (List.insertionSort (· ≤ ·)
        ((robat.gatherResults t url N).map fun r => r.response_time)).length = N := by
    rw [List.length_insertionSort, List.length_map, hlen]
  have hb : ((robat.gatherResults t url N).length : ℚ) ≠ 0 := by
    rw [hlen]; exact_mod_cast hN.ne'
  have h50 :
      (List.insertionSort (· ≤ ·)
          ((robat.gatherResults t url N).map fun r => r.response_time)).length / 2 <
        (List.insertionSort (· ≤ ·)
          ((robat.gatherResults t url N).map fun r => r.response_time)).length := by
    rw [hslen]; exact Nat.div_lt_self hN one_lt_two
  have h90 :
      pctIndex (List.insertionSort (· ≤ ·)
          ((robat.gatherResults t url N).map fun r => r.response_time)).length (9 / 10) <
        (List.insertionSort (· ≤ ·)
          ((robat.gatherResults t url N).map fun r => r.response_time)).length := by
    rw [hslen]; exact pctIndex_lt hN (by norm_num)
  have h95 :
      pctIndex (List.insertionSort (· ≤ ·)
          ((robat.gatherResults t url N).map fun r => r.response_time)).length (19 / 20) <
        (List.insertionSort (· ≤ ·)
          ((robat.gatherResults t url N).map fun r => r.response_time)).length := by
    rw [hslen]; exact pctIndex_lt hN (by norm_num)
  have h99 :
      pctIndex (List.insertionSort (· ≤ ·)
          ((robat.gatherResults t url N).map fun r => r.response_time)).length (99 / 100) <
        (List.insertionSort (· ≤ ·)
          ((robat.gatherResults t url N).map fun r => r.response_time)).length := by
    rw [hslen]; exact pctIndex_lt hN (by norm_num)
  simp only [robat.run_batch_test, pyDiv_ok hb, pyIndex_ok h50, pyIndex_ok h90,
    pyIndex_ok h95, pyIndex_ok h99]
  rfl

theorem countP_not_add {α : Type} (p : α → Bool) (l : List α) :
    l.countP p + l.countP (fun a => !p a) = l.length := by
  induction l with
  | nil => rfl
  | cons x xs ih =>
    cases h : p x <;> simp [List.countP_cons, h] <;> omega

theorem test_endpoint_request_id (t : Transport) (url : String) (i : Nat) :
    (robat.test_endpoint t url i).request_id = i := by
  unfold robat.test_endpoint
  cases t.get url [] i <;> rfl

theorem test_endpoint_response_time (t : Transport) (url : String) (i : Nat) :
    (robat.test_endpoint t url i).response_time = round3 (t.elapsed i) := by
  unfold robat.test_endpoint
  cases t.get url [] i <;> rfl

theorem test_endpoint_success_iff (t : Transport) (url : String) (i : Nat) :
    (robat.test_endpoint t url i).success = true ↔
      (robat.test_endpoint t url i).status_code = 200 := by
  unfold robat.test_endpoint
  cases t.get url [] i <;> simp

theorem mem_gatherResults {t : Transport} {url : String} {N : Nat} {r : RequestRecord}
    (h : r ∈ robat.gatherResults t url N) :
    ∃ i, i < N ∧ r = robat.test_endpoint t url i := by
  simp only [robat.gatherResults, List.mem_map, List.mem_range] at h
  obtain ⟨i, hi, hr⟩ := h
  exact ⟨i, hi, hr.symm⟩

theorem round3_mono {x y : ℚ} (h : x ≤ y) : round3 x ≤ round3 y := by
  unfold round3
  have h1 : round (x * 1000) ≤ round (y * 1000) := by
    rw [round_eq, round_eq]
    exact Int.floor_mono (by linarith)
  have h2 : ((round (x * 1000) : ℤ) : ℚ) ≤ ((round (y * 1000) : ℤ) : ℚ) := by
    exact_mod_cast h1
  linarith

theorem round3_natCast (n : Nat) : round3 ((n : ℚ)) = (n : ℚ) := by
  unfold round3
  have h1 : ((n : ℚ)) * 1000 = (((n * 1000 : ℕ) : ℤ) : ℚ) := by push_cast; ring
  rw [h1, round_intCast]
  push_cast
  field_simp

theorem pctIndex_mono {N : Nat} {p q : ℚ} (h : p ≤ q) : pctIndex N p ≤ pctIndex N q := by
  unfold pctIndex
  have h1 : ⌊(N : ℚ) * p⌋ ≤ ⌊(N : ℚ) * q⌋ :=
    Int.floor_mono (mul_le_mul_of_nonneg_left h (Nat.cast_nonneg N))
  omega

theorem div2_le_pctIndex90 (N : Nat) : N / 2 ≤ pctIndex N (9 / 10) := by
  have h1 : ((N / 2 : ℕ) : ℚ) ≤ (N : ℚ) * (9 / 10) := by
    have h2 : ((N / 2 : ℕ) : ℚ) ≤ (N : ℚ) / 2 := Nat.cast_div_le
    have h3 : (0 : ℚ) ≤ (N : ℚ) := Nat.cast_nonneg N
    linarith
  have h4 : ((N / 2 : ℕ) : ℤ) ≤ ⌊(N : ℚ) * (9 / 10)⌋ := Int.le_floor.2 (by exact_mod_cast h1)
  have h5 : pctIndex N (9 / 10) = (⌊(N : ℚ) * (9 / 10)⌋).toNat := rfl
  omega

theorem pctIndex_half (N : Nat) : pctIndex N (1 / 2) = N / 2 := by
  have h1 : (N : ℚ) * (1 / 2) = ((N : ℤ) : ℚ) / ((2 : ℕ) : ℚ) := by push_cast; ring
  have h2 : pctIndex N (1 / 2) = (⌊(N : ℚ) * (1 / 2)⌋).toNat := rfl
  rw [h2, h1, Rat.floor_intCast_div_natCast]
  omega

theorem sortedTimes_sorted (results : List RequestRecord) :
    List.Sorted (· ≤ ·) (sortedTimes results) :=
  List.sorted_insertionSort _ _

theorem sorted_getD_mono {l : List ℚ} (hl : List.Sorted (· ≤ ·) l) {i j : Nat}
    (hij : i ≤ j) (hj : j < l.length) : l.getD i 0 ≤ l.getD j 0 := by
  have hi : i < l.length := lt_of_le_of_lt hij hj
  have h := hl.rel_get_of_le (show (⟨i, hi⟩ : Fin l.length) ≤ ⟨j, hj⟩ from hij)
  rw [List.getD_eq_getElem l 0 hi, List.getD_eq_getElem l 0 hj]
  simpa [List.get_eq_getElem] using h

theorem incrKey_keys (P : String → Prop) (k : String) (hk : P k) :
    ∀ (m : List (String × Nat)), (∀ q ∈ m, P q.1) → ∀ q ∈ incrKey m k, P q.1 := by
  intro m
  induction m with
  | nil =>
    intro _ q hq
    simp only [incrKey, List.mem_singleton] at hq
    rw [hq]
    exact hk
  | cons x rest ih =>
    intro hm q hq
    obtain ⟨a, v⟩ := x
    simp only [incrKey] at hq
    by_cases hak : a = k
    · rw [if_pos hak] at hq
      rcases List.mem_cons.1 hq with h | h
      · rw [h]; exact hm (a, v) (List.mem_cons_self _ _)
      · exact hm q (List.mem_cons_of_mem _ h)
    · rw [if_neg hak] at hq
      rcases List.mem_cons.1 hq with h | h
      · rw [h]; exact hm (a, v) (List.mem_cons_self _ _)
      · exact ih (fun q hq => hm q (List.mem_cons_of_mem _ hq)) q h

theorem statusHistogram_keys (P : String → Prop) :
    ∀ (l : List RequestRecord) (m : List (String × Nat)),
      (∀ q ∈ m, P q.1) → (∀ r ∈ l, P (toString r.status_code)) →
      ∀ q ∈ l.foldl (fun m r => incrKey m (toString r.status_code)) m, P q.1 := by
  intro l
  induction l with
  | nil =>
    intro m hm _ q hq
    simp only [List.foldl_nil] at hq
    exact hm q hq
  | cons r rest ih =>
    intro m hm hl q hq
    simp only [List.foldl_cons] at hq
    exact ih _ (incrKey_keys P _ (hl r (List.mem_cons_self _ _)) m hm)
      (fun x hx => hl x (List.mem_cons_of_mem _ hx)) q hq

theorem foldl_add_eq_sum (l : List RequestRecord) :
    ∀ a : ℚ,
      l.foldl (fun s r => s + r.response_time) a = a + (l.map fun r => r.response_time).sum := by
  induction l with
  | nil => intro a; simp
  | cons x xs ih =>
    intro a
    simp only [List.foldl_cons, List.map_cons, List.sum_cons, ih]
    ring

/-- The transport as robat-base.py sees it: every session.get carries the
fixed Authorization header, whatever headers the caller passed. -/
def withAuth (t : Transport) : Transport :=
  { t with get := fun url _ i => t.get url baseHeaders i }

/-- Sample batch used by the witnesses: the BatchStats of a 3-probe
all-200 batch against the allOk transport. -/
def okStats3 : BatchStats := batchStatsOf allOk "http://test" 3 1

/-- C1: for every batch produced by run_batch_test with concurrency N >= 1,
the reported counts partition the results, successful_requests +
failed_requests = total_requests, and total_requests is the concurrency N
that was passed in. -/
theorem C1_counts_partition (t : Transport) (url : String) (N b : Nat) (hN : 1 ≤ N)
    (s : BatchStats) (hs : robat.run_batch_test t url N b = Except.ok s) :
    s.successful_requests + s.failed_requests = s.total_requests ∧ s.total_requests = N := by
  rw [run_batch_test_ok t url hN b, Except.ok.injEq] at hs
  subst hs
  refine ⟨?_, rfl⟩
  simp only [batchStatsOf]
  rw [countP_not_add, gatherResults_length]

/-- Witness for C1: the partition identity holds on the concrete 3-probe
batch okStats3. -/
theorem C1_counts_partition_witness :
    okStats3.successful_requests + okStats3.failed_requests = okStats3.total_requests ∧
      okStats3.total_requests = 3 :=
  C1_counts_partition allOk "http://test" 3 1 (by norm_num) okStats3
    (run_batch_test_ok allOk "http://test" (by norm_num) 1)

/-- C2: for every batch produced by run_batch_test with concurrency N >= 1,
detailed_results has length total_requests and the record at every index i
has request_id = i: the records appear in dispatch order, independent of
completion order. -/
theorem C2_dispatch_order (t : Transport) (url : String) (N b : Nat) (hN : 1 ≤ N)
    (s : BatchStats) (hs : robat.run_batch_test t url N b = Except.ok s) :
    s.detailed_results.length = s.total_requests ∧ s.total_requests = N ∧
      ∀ i (h : i < s.detailed_results.length),
        (s.detailed_results.get ⟨i, h⟩).request_id = i := by
  rw [run_batch_test_ok t url hN b, Except.ok.injEq] at hs
  subst hs
  simp only [batchStatsOf]
  refine ⟨gatherResults_length t url N, by trivial, ?_⟩
  intro i h
  simp only [robat.gatherResults, List.get_eq_getElem, List.getElem_map, List.getElem_range]
  exact test_endpoint_request_id t url i

/-- Witness for C2 at the concrete 3-probe batch okStats3. -/
theorem C2_dispatch_order_witness :
    okStats3.detailed_results.length = okStats3.total_requests ∧
      okStats3.total_requests = 3 ∧
      ∀ i (h : i < okStats3.detailed_results.length),
        (okStats3.detailed_results.get ⟨i, h⟩).request_id = i :=
  C2_dispatch_order allOk "http://test" 3 1 (by norm_num) okStats3
    (run_batch_test_ok allOk "http://test" (by norm_num) 1)

/-- C3: whatever the transport does, the prober returns exactly one
RequestRecord (it is a total function; no exception propagates), and on
the error path that record has status_code 0, success false, the exception
text in error, the elapsed response_time and a timestamp. -/
theorem C3_error_path (t : Transport) (url : String) (i : Nat) (msg : String)
    (h : t.get url [] i = HttpOutcome.exn msg) :
    robat.test_endpoint t url i =
      { request_id := i
        status_code := 0
        success := false
        response_time := round3 (t.elapsed i)
        response_size := none
        timestamp := t.stamp i
        headers := none
        error := some msg } := by
  unfold robat.test_endpoint
  rw [h]

/-- Witness for C3 on the allExn transport, whose every get raises. -/
theorem C3_error_path_witness :
    robat.test_endpoint allExn "http://test" 0 =
      { request_id := 0
        status_code := 0
        success := false
        response_time := round3 (allExn.elapsed 0)
        response_size := none
        timestamp := allExn.stamp 0
        headers := none
        error := some "Cannot connect to host" } :=
  C3_error_path allExn "http://test" 0 "Cannot connect to host" rfl

/-- C4: on every HTTP response the record carries the response status code
and success is true iff that status code is exactly 200 (strict equality,
not a 2xx check); a non-200 response still yields a response-shaped record
(error = none), not a transport-failure record. -/
theorem C4_success_strict_200 (t : Transport) (url : String) (i : Nat) (resp : Response)
    (h : t.get url [] i = HttpOutcome.ok resp) :
    (robat.test_endpoint t url i).status_code = resp.status ∧
      ((robat.test_endpoint t url i).success = true ↔ resp.status = 200) ∧
      (robat.test_endpoint t url i).error = none := by
  unfold robat.test_endpoint
  rw [h]
  refine ⟨rfl, ?_, rfl⟩
  simp

/-- Witness for C4 on the all500 transport: a 500 response keeps its status
code, is not a success, and is not a transport-failure record. -/
theorem C4_success_strict_200_witness :
    (robat.test_endpoint all500 "http://test" 0).status_code = 500 ∧
      ((robat.test_endpoint all500 "http://test" 0).success = true ↔ (500 : Nat) = 200) ∧
      (robat.test_endpoint all500 "http://test" 0).error = none :=
  C4_success_strict_200 all500 "http://test" 0
    { status := 500, text := "err", headers := [] } rfl

/-- C5: for every batch with N >= 1 records, average_response_time is the
arithmetic mean of the response_time values of ALL N records, successes and
failures alike, rounded to 3 decimal places. -/
theorem C5_average_over_all (t : Transport) (url : String) (N b : Nat) (hN : 1 ≤ N)
    (s : BatchStats) (hs : robat.run_batch_test t url N b = Except.ok s) :
    s.average_response_time =
      round3 ((s.detailed_results.map fun r => r.response_time).sum / (N : ℚ)) := by
  rw [run_batch_test_ok t url hN b, Except.ok.injEq] at hs
  subst hs
  simp only [batchStatsOf]
  rw [foldl_add_eq_sum, gatherResults_length, zero_add]

/-- Witness for C5 at the concrete 3-probe batch okStats3. -/
theorem C5_average_over_all_witness :
    okStats3.average_response_time =
      round3 ((okStats3.detailed_results.map fun r => r.response_time).sum / ((3 : Nat) : ℚ)) :=
  C5_average_over_all allOk "http://test" 3 1 (by norm_num) okStats3
    (run_batch_test_ok allOk "http://test" (by norm_num) 1)

/-- C6: for every batch with N >= 1 records, run_batch_test succeeds and
each percentile is read from the ascending-sorted response_time sequence at
index floor(N * p) (for p50 the source index N / 2 equals floor(N * 0.5)),
and every such index, the unclamped p99 one included, is at most N - 1, so
the indexing never goes out of bounds. -/
theorem C6_percentile_indexing (t : Transport) (url : String) (N b : Nat) (hN : 1 ≤ N) :
    (robat.run_batch_test t url N b = Except.ok (batchStatsOf t url N b)) ∧
      (batchStatsOf t url N b).response_time_percentiles.p50 =
        round3 ((sortedTimes (robat.gatherResults t url N)).getD (N / 2) 0) ∧
      (batchStatsOf t url N b).response_time_percentiles.p90 =
        round3 ((sortedTimes (robat.gatherResults t url N)).getD (pctIndex N (9 / 10)) 0) ∧
      (batchStatsOf t url N b).response_time_percentiles.p95 =
        round3 ((sortedTimes (robat.gatherResults t url N)).getD (pctIndex N (19 / 20)) 0) ∧
      (batchStatsOf t url N b).response_time_percentiles.p99 =
        round3 ((sortedTimes (robat.gatherResults t url N)).getD (pctIndex N (99 / 100)) 0) ∧
      N / 2 = pctIndex N (1 / 2) ∧
      N / 2 ≤ N - 1 ∧ pctIndex N (9 / 10) ≤ N - 1 ∧ pctIndex N (19 / 20) ≤ N - 1 ∧
      pctIndex N (99 / 100) ≤ N - 1 := by
  have hlen : (sortedTimes (robat.gatherResults t url N)).length = N := by
    rw [sortedTimes_length, gatherResults_length]
  refine ⟨run_batch_test_ok t url hN b, ?_, ?_, ?_, ?_, (pctIndex_half N).symm,
    ?_, ?_, ?_, ?_⟩
  · simp only [batchStatsOf]; rw [hlen]
  · simp only [batchStatsOf]; rw [hlen]
  · simp only [batchStatsOf]; rw [hlen]
  · simp only [batchStatsOf]; rw [hlen]
  · have := Nat.div_lt_self (show 0 < N from hN) one_lt_two; omega
  · have := pctIndex_lt (show 0 < N from hN) (show (9 : ℚ) / 10 < 1 by norm_num); omega
  · have := pctIndex_lt (show 0 < N from hN) (show (19 : ℚ) / 20 < 1 by norm_num); omega
  · have := pctIndex_lt (show 0 < N from hN) (show (99 : ℚ) / 100 < 1 by norm_num); omega

/-- Witness for C6 at the concrete 3-probe batch on allOk. -/
theorem C6_percentile_indexing_witness :
    (robat.run_batch_test allOk "http://test" 3 1 =
        Except.ok (batchStatsOf allOk "http://test" 3 1)) ∧
      (batchStatsOf allOk "http://test" 3 1).response_time_percentiles.p50 =
        round3 ((sortedTimes (robat.gatherResults allOk "http://test" 3)).getD (3 / 2) 0) ∧
      (batchStatsOf allOk "http://test" 3 1).response_time_percentiles.p90 =
        round3 ((sortedTimes (robat.gatherResults allOk "http://test" 3)).getD
          (pctIndex 3 (9 / 10)) 0) ∧
      (batchStatsOf allOk "http://test" 3 1).response_time_percentiles.p95 =
        round3 ((sortedTimes (robat.gatherResults allOk "http://test" 3)).getD
          (pctIndex 3 (19 / 20)) 0) ∧
      (batchStatsOf allOk "http://test" 3 1).response_time_percentiles.p99 =
        round3 ((sortedTimes (robat.gatherResults allOk "http://test" 3)).getD
          (pctIndex 3 (99 / 100)) 0) ∧
      3 / 2 = pctIndex 3 (1 / 2) ∧
      3 / 2 ≤ 3 - 1 ∧ pctIndex 3 (9 / 10) ≤ 3 - 1 ∧ pctIndex 3 (19 / 20) ≤ 3 - 1 ∧
      pctIndex 3 (99 / 100) ≤ 3 - 1 :=
  C6_percentile_indexing allOk "http://test" 3 1 (by norm_num)

/-- C7: for every batch with N >= 1 records whose response_time values are
not all identical, the computed percentiles are monotone:
p50 <= p90 <= p95 <= p99. -/
theorem C7_percentiles_monotone (t : Transport) (url : String) (N b : Nat) (hN : 1 ≤ N)
    (s : BatchStats) (hs : robat.run_batch_test t url N b = Except.ok s)
    (hnd : ∃ r1 ∈ s.detailed_results, ∃ r2 ∈ s.detailed_results,
        r1.response_time ≠ r2.response_time) :
    s.response_time_percentiles.p50 ≤ s.response_time_percentiles.p90 ∧
      s.response_time_percentiles.p90 ≤ s.response_time_percentiles.p95 ∧
      s.response_time_percentiles.p95 ≤ s.response_time_percentiles.p99 := by
  rw [run_batch_test_ok t url hN b, Except.ok.injEq] at hs
  subst hs
  have hsorted := sortedTimes_sorted (robat.gatherResults t url N)
  have hlen : (sortedTimes (robat.gatherResults t url N)).length = N := by
    rw [sortedTimes_length, gatherResults_length]
  simp only [batchStatsOf]
  refine ⟨?_, ?_, ?_⟩
  · apply round3_mono
    apply sorted_getD_mono hsorted
    · rw [hlen]; exact div2_le_pctIndex90 N
    · rw [hlen]; exact pctIndex_lt hN (by norm_num)
  · apply round3_mono
    apply sorted_getD_mono hsorted
    · rw [hlen]; exact pctIndex_mono (by norm_num)
    · rw [hlen]; exact pctIndex_lt hN (by norm_num)
  · apply round3_mono
    apply sorted_getD_mono hsorted
    · rw [hlen]; exact pctIndex_mono (by norm_num)
    · rw [hlen]; exact pctIndex_lt hN (by norm_num)

/-- Witness for C7 at the concrete 3-probe batch okStats3, whose latencies
0, 1, 2 are not all identical. -/
theorem C7_percentiles_monotone_witness :
    okStats3.response_time_percentiles.p50 ≤ okStats3.response_time_percentiles.p90 ∧
      okStats3.response_time_percentiles.p90 ≤ okStats3.response_time_percentiles.p95 ∧
      okStats3.response_time_percentiles.p95 ≤ okStats3.response_time_percentiles.p99 :=
  C7_percentiles_monotone allOk "http://test" 3 1 (by norm_num) okStats3
    (run_batch_test_ok allOk "http://test" (by norm_num) 1)
    (by
      have e0 : (robat.test_endpoint allOk "http://test" 0).response_time = ((0 : ℕ) : ℚ) := by
        rw [test_endpoint_response_time]; exact round3_natCast 0
      have e1 : (robat.test_endpoint allOk "http://test" 1).response_time = ((1 : ℕ) : ℚ) := by
        rw [test_endpoint_response_time]; exact round3_natCast 1
      refine ⟨robat.test_endpoint allOk "http://test" 0, ?_,
        robat.test_endpoint allOk "http://test" 1, ?_, ?_⟩
      · show _ ∈ robat.gatherResults allOk "http://test" 3
        simp only [robat.gatherResults]
        exact List.mem_map.2 ⟨0, List.mem_range.2 (by norm_num), rfl⟩
      · show _ ∈ robat.gatherResults allOk "http://test" 3
        simp only [robat.gatherResults]
        exact List.mem_map.2 ⟨1, List.mem_range.2 (by norm_num), rfl⟩
      · rw [e0, e1]; norm_num)

/-- C8: invoked with concurrency 0, run_batch_test does not fail fast with
a precondition or configuration check; it reaches the average computation
and divides by len(results) = 0, raising ZeroDivisionError, whatever the
transport and batch id. -/
theorem C8_zero_concurrency_divides_by_zero (t : Transport) (url : String) (b : Nat) :
    robat.run_batch_test t url 0 b =
      Except.error "ZeroDivisionError: division by zero" := rfl

/-- C9 counterexample: a 1-probe batch against all500 has every record with
success = false, yet its status_codes key is "500", not "0": records with
success = false need not be transport failures. -/
theorem C9_counterexample_all500 :
    robat.run_batch_test all500 "http://test" 1 1 =
      Except.ok (batchStatsOf all500 "http://test" 1 1) ∧
      (∀ r ∈ (batchStatsOf all500 "http://test" 1 1).detailed_results, r.success = false) ∧
      ¬ (∀ q ∈ (batchStatsOf all500 "http://test" 1 1).status_codes, q.1 = "0") := by
  refine ⟨run_batch_test_ok all500 "http://test" (by norm_num) 1, ?_, ?_⟩
  · intro r hr
    have hr2 : r ∈ robat.gatherResults all500 "http://test" 1 := hr
    obtain ⟨i, hi, rfl⟩ := mem_gatherResults hr2
    rfl
  · intro hall
    have hsc : (batchStatsOf all500 "http://test" 1 1).status_codes = [("500", 1)] := by rfl
    have h5 : ("500", (1 : Nat)) ∈ (batchStatsOf all500 "http://test" 1 1).status_codes := by
      rw [hsc]; exact List.mem_singleton.2 rfl
    exact absurd (hall _ h5) (by decide)

/-- C9 amended: in every batch in which every probe fails at the transport
level (every record is a failure-shaped record with status_code = 0), the
stats have successful_requests = 0 and every status_codes key is the
string "0". -/
theorem C9_all_transport_failures (t : Transport) (url : String) (N b : Nat)
    (s : BatchStats) (hs : robat.run_batch_test t url N b = Except.ok s)
    (hfail : ∀ r ∈ s.detailed_results, r.status_code = 0) :
    s.successful_requests = 0 ∧ ∀ q ∈ s.status_codes, q.1 = "0" := by
  rcases Nat.eq_zero_or_pos N with hN | hN
  · subst hN
    rw [show robat.run_batch_test t url 0 b =
      Except.error "ZeroDivisionError: division by zero" from rfl] at hs
    cases hs
  · rw [run_batch_test_ok t url hN b, Except.ok.injEq] at hs
    subst hs
    constructor
    · simp only [batchStatsOf]
      rw [List.countP_eq_zero]
      intro r hr hsucc
      have h0 : r.status_code = 0 := hfail r hr
      obtain ⟨i, hi, rfl⟩ := mem_gatherResults hr
      have := (test_endpoint_success_iff t url i).1 hsucc
      omega
    · intro q hq
      have hq2 : q ∈ (robat.gatherResults t url N).foldl
          (fun m r => incrKey m (toString r.status_code)) [] := hq
      refine statusHistogram_keys (fun k => k = "0") (robat.gatherResults t url N) []
        ?_ ?_ q hq2
      · intro x hx
        cases hx
      · intro r hr
        have h0 : r.status_code = 0 := hfail r hr
        rw [h0]
        rfl

/-- Witness for the amended C9 on the allExn transport with 2 probes:
every probe raises, so every record has status_code 0. -/
theorem C9_all_transport_failures_witness :
    (batchStatsOf allExn "http://test" 2 1).successful_requests = 0 ∧
      ∀ q ∈ (batchStatsOf allExn "http://test" 2 1).status_codes, q.1 = "0" :=
  C9_all_transport_failures allExn "http://test" 2 1 (batchStatsOf allExn "http://test" 2 1)
    (run_batch_test_ok allExn "http://test" (by norm_num) 1)
    (by
      intro r hr
      have hr2 : r ∈ robat.gatherResults allExn "http://test" 2 := hr
      obtain ⟨i, hi, rfl⟩ := mem_gatherResults hr2
      rfl)

/-- C10: whenever the two scripts gather the same records, their
run_batch_test aggregations return identical BatchStats, and the two
probers differ only in the fixed Authorization header that robat-base.py
passes to session.get. -/
theorem C10_copies_equivalent (t : Transport) (url : String) (N b : Nat)
    (h : robat.gatherResults t url N = robatBase.gatherResults t url N) :
    robat.run_batch_test t url N b = robatBase.run_batch_test t url N b ∧
      ∀ i, robatBase.test_endpoint t url i = robat.test_endpoint (withAuth t) url i := by
  constructor
  · simp only [robat.run_batch_test, robatBase.run_batch_test, h]
  · intro i
    rfl

/-- Witness for C10 on the allOk transport, which ignores request headers,
so the two scripts gather identical records. -/
theorem C10_copies_equivalent_witness :
    robat.run_batch_test allOk "http://test" 3 1 =
      robatBase.run_batch_test allOk "http://test" 3 1 ∧
      ∀ i, robatBase.test_endpoint allOk "http://test" i =
        robat.test_endpoint (withAuth allOk) "http://test" i :=
  C10_copies_equivalent allOk "http://test" 3 1 rfl
